import Mathlib

/-!
Shallow embedding of the agentscope C++ server core
(`src/agentscope/cpp_server/worker.cc`, `worker.h`,
`src/agentscope/cpp_server/rpc_agent_servicer.cc`), restricted to the parts
needed for the verified claims: the task registry with its lazy head-trim,
the two-tier shared-memory content channel, the front-end dispatch error
paths, the reply worker's result-posting order, the worker-pool sizing, the
file-download chunking loop, and the `AGENTSCOPE_MAX_CALL_ID` parsing.
-/

set_option autoImplicit false

namespace AgentScope

/-- Parsed `WorkerArgs::MsgReturn` protobuf message: an `ok` flag and a
`message` payload.  Protobuf (de)serialization is external to the core, so
results are modelled in parsed form. -/
structure MsgReturn where
  ok : Bool
  message : String
deriving DecidableEq, Repr

/-- One entry of the `_tasks` deque: the C++ element is
`pair<long long, unique_ptr<Task>>` where `Task` carries `_task_id`,
`_task_finished` and `_task_result`.  `result` is the eventual parsed value
that `Task::get_result` returns once `_task_finished` is set (the condvar
wait is abstracted away: we model the value returned when the wait ends). -/
structure TaskEntry where
  ts : Int
  taskId : Int
  finished : Bool
  result : MsgReturn
deriving DecidableEq, Repr

/-- Head-trimming loop of `Worker::get_task_id_and_callback_id`
(worker.cc:491-495): pop from the front while the deque is non-empty, the
front task is finished, and (the size is at least `max_tasks` or the front
entry's age exceeds `max_timeout_seconds`).  `is_timeout` (worker.h:174-177)
compares `now - timestamp > _max_timeout_seconds` as signed 64-bit values. -/
def trimTasks (now : Int) (maxTasks maxTimeout : Nat) : List TaskEntry → List TaskEntry
  | [] => []
  | t :: rest =>
    if t.finished = true ∧ ((t :: rest).length ≥ maxTasks ∨ now - t.ts > (maxTimeout : Int)) then
      trimTasks now maxTasks maxTimeout rest
    else
      t :: rest

/-- `Worker::get_task_result` (worker.cc:520-541).  The C++ code reads
`_tasks.front()` before any emptiness check, so the empty-deque case is
undefined behaviour; the total embedding returns `none` there.  Otherwise
`idx = task_id - front.task_id`; if `0 <= idx < size` the task's result is
awaited and parsed into `(ok, message)`, else `(false, "")` is returned. -/
def getTaskResult (tasks : List TaskEntry) (taskId : Int) : Option (Bool × String) :=
  match tasks with
  | [] => none
  | first :: rest =>
    if h : 0 ≤ taskId - first.taskId ∧
        taskId - first.taskId < ((first :: rest).length : Int) then
      some ((((first :: rest).get ⟨(taskId - first.taskId).toNat, by omega⟩).result).ok,
            (((first :: rest).get ⟨(taskId - first.taskId).toNat, by omega⟩).result).message)
    else
      some (false, "")

/-- `Worker::call_update_placeholder` (worker.cc:983-999): on an invalid
task with empty message it answers "Task [id] not exists.", on an invalid
task with a message it passes the message through, otherwise it returns the
result.  The `none` case propagates the undefined front access. -/
def call_update_placeholder (tasks : List TaskEntry) (taskId : Int) : Option (Bool × String) :=
  match getTaskResult tasks taskId with
  | none => none
  | some (isValid, result) =>
    if isValid = true then
      some (true, result)
    else if result = "" then
      some (false, "Task [" ++ toString taskId ++ "] not exists.")
    else
      some (false, result)

/-- Unfinished task entry, one second old at creation time 0. -/
def entryA : TaskEntry := ⟨0, 0, false, ⟨true, ""⟩⟩

/-- Unfinished task entry with task id 1. -/
def entryB : TaskEntry := ⟨0, 1, false, ⟨true, ""⟩⟩

/-- Small-object threshold `_small_obj_size` from the `Worker::Worker`
initializer list (worker.cc:75): payloads of at most this many bytes use the
pooled slot. -/
def smallObjSize : Nat := 1000

/-- Slot size `_small_obj_shm_size` of the small-object pool
(worker.cc:76). -/
def smallObjShmSize : Nat := 1024

/-- One slot of the small-object pool: layout
`[occupied: int32][length: int32][payload bytes]` (worker.cc:366-377 and
410-420). -/
structure SmallSlot where
  occupied : Bool
  length : Nat
  payload : List Nat
deriving DecidableEq, Repr

/-- Named slow-path segment: layout `[length: int32][payload bytes]`
(worker.cc:422-439). -/
structure NamedSeg where
  length : Nat
  bytes : List Nat
deriving DecidableEq, Repr

/-- Shared-memory state visible to `set_content`/`get_content`: the
small-object pool indexed by call id and the named segments indexed by
name. -/
structure ShmState where
  pool : Nat → SmallSlot
  segments : String → Option NamedSeg

/-- Initial shared-memory state: the pool is zeroed by `memset`
(worker.cc:128) and no named segment exists. -/
def shmInit : ShmState := ⟨fun _ => ⟨false, 0, []⟩, fun _ => none⟩

/-- `Worker::set_content` (worker.cc:410-443): when
`content.size() <= _small_obj_size` the content goes into the small slot of
`call_id` with `occupied = 1`; otherwise a named segment
`<pfx><call_id>` of layout `[length][bytes]` is created. -/
def set_content (st : ShmState) (pfx : String) (callId : Nat) (content : List Nat) : ShmState :=
  if content.length ≤ smallObjSize then
    { st with pool := fun i => if i = callId then ⟨true, content.length, content⟩ else st.pool i }
  else
    { st with segments := fun n =>
        if n = pfx ++ toString callId then some ⟨content.length, content⟩ else st.segments n }

/-- `Worker::get_content` (worker.cc:366-408): when the small slot of
`call_id` is occupied, read `length` bytes from it and clear `occupied`;
otherwise open the named segment `<pfx><call_id>`, read `length` bytes, and
unlink it.  A missing segment is fatal (`shm_open` failure kills the
server), modelled as `none`. -/
def get_content (st : ShmState) (pfx : String) (callId : Nat) :
    Option (List Nat × ShmState) :=
  if (st.pool callId).occupied = true then
    some ((st.pool callId).payload.take (st.pool callId).length,
      { st with pool := fun i =>
          if i = callId then
            ⟨false, (st.pool callId).length, (st.pool callId).payload⟩
          else st.pool i })
  else
    match st.segments (pfx ++ toString callId) with
    | some seg =>
      some (seg.bytes.take seg.length,
        { st with segments := fun n =>
            if n = pfx ++ toString callId then none else st.segments n })
    | none => none

/-- Worker pool size: the constructor stores
`_num_workers = std::max(num_workers, 1u)` (worker.cc:70);
`hardware_concurrency` is never consulted anywhere in the source. -/
def numWorkersStored (numWorkersArg : Nat) : Nat := max numWorkersArg 1

/-- Indices of the worker processes forked by the startup loop
`for (i = 0; i < _num_workers; i++) ... fork()` (worker.cc:164-268). -/
def forkedWorkerIds (numWorkersArg : Nat) : List Nat :=
  List.range (numWorkersStored numWorkersArg)

/-- Claimed pool size, following the spec's words for comparison:
"Worker pool size is min(num_workers, hardware_concurrency()) clamped
to ≥ 1". -/
def claimedWorkerPoolSize (numWorkersArg hardwareConcurrency : Nat) : Nat :=
  max (min numWorkersArg hardwareConcurrency) 1

/-- Observable events of `Worker::reply_worker` in program order. -/
inductive ReplyEvent where
  | getArgs (callId : Nat)
  | setCallResult (callId : Nat) (content : String)
  | agentReply (agentId : String)
  | setCallbackResult (callbackId : Nat) (result : MsgReturn)
deriving DecidableEq, Repr

/-- Result recorded by the try/catch around `agent.attr("reply")`
(worker.cc:908-920): on success `ok = true` with the serialized reply, on an
exception `ok = false` with the exception message. -/
def replyWorkerResult (agentOutcome : Except String String) : MsgReturn :=
  match agentOutcome with
  | Except.ok serialized => ⟨true, serialized⟩
  | Except.error errMsg => ⟨false, errMsg⟩

/-- Event trace of `Worker::reply_worker` (worker.cc:879-924): read the
args, post `to_string(task_id)` as the result of `call_id`, run the agent's
reply, then post the serialized reply result to `callback_id`. -/
def reply_worker (callId : Nat) (agentId : String) (taskId : Int) (callbackId : Nat)
    (agentOutcome : Except String String) : List ReplyEvent :=
  [ReplyEvent.getArgs callId,
   ReplyEvent.setCallResult callId (toString taskId),
   ReplyEvent.agentReply agentId,
   ReplyEvent.setCallbackResult callbackId (replyWorkerResult agentOutcome)]

/-- Front-end dispatch state: the agent routing table `_agent_id_map` and
the monotone task counter `_num_tasks`. -/
structure FrontendState where
  agentIdMap : List (String × Nat)
  numTasks : Nat
deriving DecidableEq, Repr

/-- Empty front-end state: no agents, no tasks. -/
def frontendInit : FrontendState := ⟨[], 0⟩

/-- `Worker::get_worker_id_by_agent_id` (worker.cc:473-484): the owning
worker id, or -1 when the agent id is absent from the routing table. -/
def get_worker_id_by_agent_id (m : List (String × Nat)) (agentId : String) : Int :=
  match m.find? (fun p => p.1 = agentId) with
  | some p => (p.2 : Int)
  | none => -1

/-- `Worker::call_reply` (worker.cc:857-877): an unknown agent yields
`(false, "Try to reply a non-existent agent [id].")`; a known agent
allocates the next task id and returns `(true, to_string(task_id))` (the
string posted back by `reply_worker` before running the reply). -/
def call_reply (st : FrontendState) (agentId : String) :
    (Bool × String) × FrontendState :=
  if get_worker_id_by_agent_id st.agentIdMap agentId = -1 then
    ((false, "Try to reply a non-existent agent [" ++ agentId ++ "]."), st)
  else
    ((true, toString st.numTasks), { st with numTasks := st.numTasks + 1 })

/-- `Worker::call_observe` (worker.cc:926-940): an unknown agent yields
`(false, "Try to observe a non-existent agent [id].")`; otherwise the
observe worker posts an empty result. -/
def call_observe (st : FrontendState) (agentId : String) :
    (Bool × String) × FrontendState :=
  if get_worker_id_by_agent_id st.agentIdMap agentId = -1 then
    ((false, "Try to observe a non-existent agent [" ++ agentId ++ "]."), st)
  else
    ((true, ""), st)

/-- Transport-level status of a gRPC handler. -/
inductive GrpcStatus where
  | ok
  | invalidArgument (msg : String)
  | notFound (msg : String)
  | internal (msg : String)
  | aborted (msg : String)
deriving DecidableEq, Repr

/-- Response body `GeneralResponse {ok, message}` of the RPC surface. -/
structure GeneralResponse where
  ok : Bool
  message : String
deriving DecidableEq, Repr

/-- `RpcAgentServiceImpl::call_agent_func`
(cpp_server/rpc_agent_servicer.cc:135-156): demultiplex on `target_func`;
unknown names and failed calls surface as transport INVALID_ARGUMENT, a
successful call answers OK with the call's message. -/
def call_agent_func (st : FrontendState) (agentId targetFunc : String) :
    (GrpcStatus × Option GeneralResponse) × FrontendState :=
  if targetFunc = "_reply" then
    match call_reply st agentId with
    | ((true, msg), st') => ((GrpcStatus.ok, some ⟨true, msg⟩), st')
    | ((false, msg), st') => ((GrpcStatus.invalidArgument msg, none), st')
  else if targetFunc = "_observe" then
    match call_observe st agentId with
    | ((true, msg), st') => ((GrpcStatus.ok, some ⟨true, msg⟩), st')
    | ((false, msg), st') => ((GrpcStatus.invalidArgument msg, none), st')
  else
    ((GrpcStatus.invalidArgument ("Unsupported method " ++ targetFunc ++ "."), none), st)

/-- Chunk size of `download_file`: a 1 MiB buffer
(cpp_server/rpc_agent_servicer.cc:191-192). -/
def readSize : Nat := 1024 * 1024

/-- Sizes of the `ByteMsg` chunks streamed by the read loop of
`RpcAgentServiceImpl::download_file`
(cpp_server/rpc_agent_servicer.cc:196-219): each iteration reads up to
`readSize` bytes and sends `gcount()` of them; the loop returns OK at the
read that hits end of file. -/
def downloadChunkSizes (remaining : Nat) : List Nat :=
  if h : remaining < readSize then
    [remaining]
  else
    readSize :: downloadChunkSizes (remaining - readSize)
termination_by remaining
decreasing_by
  simp only [readSize] at h ⊢
  omega

/-- `RpcAgentServiceImpl::download_file`
(cpp_server/rpc_agent_servicer.cc:176-220), with writes assumed delivered:
a missing file is transport NOT_FOUND, otherwise the file is streamed in
chunks and the handler returns OK. -/
def download_file (filepath : String) (fileExists : Bool) (fileSize : Nat) :
    GrpcStatus × List Nat :=
  if fileExists = true then
    (GrpcStatus.ok, downloadChunkSizes fileSize)
  else
    (GrpcStatus.notFound ("File " ++ filepath ++ " not found"), [])

/-- Whitespace test of the C locale `isspace`, used by `std::stoi` before
the optional sign and digits. -/
def isSpaceChar (c : Char) : Bool :=
  c = ' ' ∨ c = '\t' ∨ c = '\n' ∨ c = '\x0b' ∨ c = '\x0c' ∨ c = '\r'

/-- Numeric value of a list of decimal digit characters. -/
def digitsVal (ds : List Char) : Nat :=
  ds.foldl (fun acc c => acc * 10 + (c.toNat - '0'.toNat)) 0

/-- Failure modes of `std::stoi`. -/
inductive StoiError where
  | invalidArgument
  | outOfRange
deriving DecidableEq, Repr

/-- Smallest `int` value. -/
def intMin : Int := -(2 ^ 31)

/-- Largest `int` value. -/
def intMax : Int := 2 ^ 31 - 1

/-- Model of `std::stoi` on the relevant inputs: skip leading whitespace,
accept an optional sign followed by decimal digits; no digits raises
`invalid_argument`; a value outside `int` raises `out_of_range`; trailing
non-digit characters are ignored. -/
def stoi (s : String) : Except StoiError Int :=
  match (s.toList.dropWhile isSpaceChar) with
  | '-' :: r =>
    if r.takeWhile Char.isDigit = [] then Except.error StoiError.invalidArgument
    else if (-(digitsVal (r.takeWhile Char.isDigit) : Int)) < intMin then
      Except.error StoiError.outOfRange
    else Except.ok (-(digitsVal (r.takeWhile Char.isDigit) : Int))
  | '+' :: r =>
    if r.takeWhile Char.isDigit = [] then Except.error StoiError.invalidArgument
    else if intMax < (digitsVal (r.takeWhile Char.isDigit) : Int) then
      Except.error StoiError.outOfRange
    else Except.ok (digitsVal (r.takeWhile Char.isDigit) : Int)
  | r =>
    if r.takeWhile Char.isDigit = [] then Except.error StoiError.invalidArgument
    else if intMax < (digitsVal (r.takeWhile Char.isDigit) : Int) then
      Except.error StoiError.outOfRange
    else Except.ok (digitsVal (r.takeWhile Char.isDigit) : Int)

/-- Default `_default_max_call_id` (worker.h:136). -/
def defaultMaxCallId : Nat := 10000

/-- Conversion of an `int` to the `unsigned int` return value of
`calc_max_call_id`: reduction modulo 2^32 into `[0, 2^32)`. -/
def toUInt32Nat (v : Int) : Nat := (v % (2 ^ 32 : Int)).toNat

/-- `Worker::calc_max_call_id` (worker.h:137-154): parse the environment
variable `AGENTSCOPE_MAX_CALL_ID` with `std::stoi`; an unset variable or a
parse exception yields the default 10000; a parsed value is converted to the
`unsigned int` return type modulo 2^32. -/
def calc_max_call_id (env : Option String) : Nat :=
  match env with
  | none => defaultMaxCallId
  | some s =>
    match stoi s with
    | Except.ok v => toUInt32Nat v
    | Except.error _ => defaultMaxCallId

/-- C1 (counterexample): the claim that after the trimming loop of
`get_task_id_and_callback_id` every remaining entry is younger than
`max_timeout_seconds` and the deque size stays within `max_tasks` fails on
the code.  With `now = 100`, `max_tasks = 1`, `max_timeout_seconds = 1` and
two unfinished entries of age 100, the loop removes nothing: the front
entry is not finished, so both the size bound and the age bound are
violated after the trim. -/
theorem c1_claim_counterexample :
    ¬ ((AgentScope.trimTasks 100 1 1 [AgentScope.entryA, AgentScope.entryB]).length ≤ 1 ∧
       ∀ e ∈ AgentScope.trimTasks 100 1 1 [AgentScope.entryA, AgentScope.entryB],
         ¬ ((100 : Int) - e.ts > (1 : Int))) := by
  decide

/-- C1 (amended): the trimming loop of `get_task_id_and_callback_id` only
removes finished entries from the head, and on exit the deque is a suffix
of the original that is empty, or has an unfinished front entry, or has
size below `max_tasks` with a front entry no older than
`max_timeout_seconds`.  Unfinished entries can keep the deque above
`max_tasks` and older than `max_timeout_seconds`. -/
theorem c1_trim_postcondition (now : Int) (maxTasks maxTimeout : Nat)
    (l : List AgentScope.TaskEntry) :
    ∃ dropped : List AgentScope.TaskEntry,
      l = dropped ++ AgentScope.trimTasks now maxTasks maxTimeout l ∧
      (∀ e ∈ dropped, e.finished = true) ∧
      (AgentScope.trimTasks now maxTasks maxTimeout l = [] ∨
        ∃ t rest, AgentScope.trimTasks now maxTasks maxTimeout l = t :: rest ∧
          (t.finished = false ∨
            ((t :: rest).length < maxTasks ∧ now - t.ts ≤ (maxTimeout : Int)))) := by
  induction l with
  | nil =>
    exact ⟨[], rfl, by simp, Or.inl rfl⟩
  | cons t rest ih =>
    rw [AgentScope.trimTasks]
    split
    · rename_i hcond
      obtain ⟨dropped, hsplit, hfin, hpost⟩ := ih
      exact ⟨t :: dropped, by simpa using hsplit,
        by
          intro e he
          rcases List.mem_cons.mp he with h | h
          · exact h ▸ hcond.1
          · exact hfin e h,
        hpost⟩
    · rename_i hcond
      refine ⟨[], rfl, by simp, Or.inr ⟨t, rest, rfl, ?_⟩⟩
      by_cases hf : t.finished = true
      · right
        constructor
        · by_contra hlen
          exact hcond ⟨hf, Or.inl (Nat.le_of_not_lt hlen)⟩
        · by_contra hts
          exact hcond ⟨hf, Or.inr (lt_of_not_le hts)⟩
      · exact Or.inl (Bool.not_eq_true _ ▸ Bool.of_not_eq_true hf)

/-- C2 (counterexample): with an empty task deque (no reply ever enqueued)
and task id 0, `get_task_result` does not return `(false, "")`: the C++
code dereferences `_tasks.front()` on the empty deque before any range
check, which is undefined behaviour, modelled as `none`. -/
theorem c2_claim_counterexample :
    ¬ (AgentScope.getTaskResult [] 0 = some (false, "") ∧
       AgentScope.call_update_placeholder [] 0 = some (false, "Task [0] not exists.")) := by
  decide

/-- C2 (amended): provided the task deque is non-empty, for every task id
out of range of the registry (evicted or never created),
`get_task_result` returns `(false, "")` and `call_update_placeholder`
translates that into `(false, "Task [task_id] not exists.")`. -/
theorem c2_out_of_range (first : AgentScope.TaskEntry) (rest : List AgentScope.TaskEntry)
    (taskId : Int)
    (h : ¬ (0 ≤ taskId - first.taskId ∧
            taskId - first.taskId < ((first :: rest).length : Int))) :
    AgentScope.getTaskResult (first :: rest) taskId = some (false, "") ∧
    AgentScope.call_update_placeholder (first :: rest) taskId =
      some (false, "Task [" ++ toString taskId ++ "] not exists.") := by
  have h1 : AgentScope.getTaskResult (first :: rest) taskId = some (false, "") := by
    rw [AgentScope.getTaskResult]
    exact dif_neg h
  refine ⟨h1, ?_⟩
  rw [AgentScope.call_update_placeholder, h1]
  simp

/-- C2 (witness): a one-entry deque holding task id 0 with the out-of-range
query 5. -/
theorem c2_out_of_range_witness :
    (¬ (0 ≤ (5 : Int) - AgentScope.entryA.taskId ∧
        (5 : Int) - AgentScope.entryA.taskId <
          (([AgentScope.entryA] : List AgentScope.TaskEntry).length : Int))) ∧
    (AgentScope.getTaskResult [AgentScope.entryA] 5 = some (false, "") ∧
     AgentScope.call_update_placeholder [AgentScope.entryA] 5 =
       some (false, "Task [" ++ toString (5 : Int) ++ "] not exists.")) :=
  ⟨by decide, c2_out_of_range AgentScope.entryA [] 5 (by decide)⟩

/-- C9: the out-of-range branch of `get_task_result` only protects indices
against a non-empty deque: in the total embedding the function yields
`none` (modelling the unguarded `front()` access, undefined behaviour in
the C++) exactly when the task deque is empty, a state that is reachable
before any reply has been enqueued. -/
theorem c9_empty_deque_unguarded (tasks : List AgentScope.TaskEntry) (taskId : Int) :
    AgentScope.getTaskResult tasks taskId = none ↔ tasks = [] := by
  cases tasks with
  | nil => simp [AgentScope.getTaskResult]
  | cons first rest =>
    rw [AgentScope.getTaskResult]
    constructor
    · intro hnone
      by_cases h : 0 ≤ taskId - first.taskId ∧
          taskId - first.taskId < ((first :: rest).length : Int)
      · rw [dif_pos h] at hnone
        exact absurd hnone (by simp)
      · rw [dif_neg h] at hnone
        exact absurd hnone (by simp)
    · intro hcontra
      exact absurd hcontra (by simp)

/-- C3: in the event trace of `reply_worker`, the task id is posted as the
result of the call id strictly before the agent's reply runs, and the
serialized reply result is posted to the callback id strictly after the
agent's reply has completed; this holds for successful replies and for
replies that raise an exception. -/
theorem c3_reply_worker_order (callId : Nat) (agentId : String) (taskId : Int)
    (callbackId : Nat) (agentOutcome : Except String String) :
    ∃ i j k : Nat, i < j ∧ j < k ∧
      (AgentScope.reply_worker callId agentId taskId callbackId agentOutcome)[i]? =
        some (AgentScope.ReplyEvent.setCallResult callId (toString taskId)) ∧
      (AgentScope.reply_worker callId agentId taskId callbackId agentOutcome)[j]? =
        some (AgentScope.ReplyEvent.agentReply agentId) ∧
      (AgentScope.reply_worker callId agentId taskId callbackId agentOutcome)[k]? =
        some (AgentScope.ReplyEvent.setCallbackResult callbackId
          (AgentScope.replyWorkerResult agentOutcome)) :=
  ⟨1, 2, 3, by omega, by omega, rfl, rfl, rfl⟩

/-- C4 (counterexample): the claim that the number of forked worker
processes equals `min(num_workers, hardware_concurrency())` clamped to at
least 1 fails on the code: with `num_workers = 2` on a machine with
`hardware_concurrency() = 1` the constructor still forks 2 workers, because
the source never consults `hardware_concurrency`. -/
theorem c4_claim_counterexample :
    (AgentScope.forkedWorkerIds 2).length ≠ AgentScope.claimedWorkerPoolSize 2 1 := by
  decide

/-- C4 (amended): for every constructor argument `num_workers`, the number
of worker processes the server forks equals `max(num_workers, 1)`;
`hardware_concurrency()` plays no role, so the pool is only clamped from
below. -/
theorem c4_forked_count (numWorkersArg : Nat) :
    (AgentScope.forkedWorkerIds numWorkersArg).length = max numWorkersArg 1 ∧
    1 ≤ (AgentScope.forkedWorkerIds numWorkersArg).length := by
  constructor
  · simp [AgentScope.forkedWorkerIds, AgentScope.numWorkersStored]
  · simp [AgentScope.forkedWorkerIds, AgentScope.numWorkersStored]

/-- C5: reading a call id's content with `get_content` right after writing
it with `set_content` yields exactly the bytes written, on the small-object
pool path and on the named-segment path alike; the precondition is that the
small slot of the call id is free before the write, which every exchange
guarantees because `get_content` clears the `occupied` flag. -/
theorem c5_roundtrip (st : AgentScope.ShmState) (pfx : String) (callId : Nat)
    (content : List Nat)
    (h : (st.pool callId).occupied = false) :
    (AgentScope.get_content (AgentScope.set_content st pfx callId content) pfx callId).map
      Prod.fst = some content := by
  by_cases hs : content.length ≤ AgentScope.smallObjSize
  · simp [AgentScope.set_content, AgentScope.get_content, hs, List.take_length]
  · simp [AgentScope.set_content, AgentScope.get_content, hs, h, List.take_length]

/-- C5 (witness): a three-byte payload round-trips through a fresh
shared-memory state on the result channel of call id 0. -/
theorem c5_roundtrip_witness :
    ((AgentScope.shmInit.pool 0).occupied = false) ∧
    (AgentScope.get_content
        (AgentScope.set_content AgentScope.shmInit "/result_8000_" 0 [1, 2, 3])
        "/result_8000_" 0).map Prod.fst = some [1, 2, 3] :=
  ⟨rfl, c5_roundtrip AgentScope.shmInit "/result_8000_" 0 [1, 2, 3] rfl⟩

/-- C6: a payload of exactly `small_obj_size` bytes is written into the
small-object slot of its call id with the `occupied` flag set and leaves
the named segments untouched, while a payload of `small_obj_size + 1` bytes
is written to the named shared-memory segment of its call id and leaves the
small-object pool untouched. -/
theorem c6_boundary (st : AgentScope.ShmState) (pfx : String) (callId : Nat)
    (small big : List Nat)
    (hsmall : small.length = AgentScope.smallObjSize)
    (hbig : big.length = AgentScope.smallObjSize + 1) :
    ((AgentScope.set_content st pfx callId small).pool callId =
        ⟨true, AgentScope.smallObjSize, small⟩ ∧
      (AgentScope.set_content st pfx callId small).segments = st.segments) ∧
    ((AgentScope.set_content st pfx callId big).pool = st.pool ∧
      (AgentScope.set_content st pfx callId big).segments (pfx ++ toString callId) =
        some ⟨AgentScope.smallObjSize + 1, big⟩) := by
  constructor
  · have hle : small.length ≤ AgentScope.smallObjSize := le_of_eq hsmall
    rw [AgentScope.set_content, if_pos hle]
    exact ⟨by simp [hsmall], rfl⟩
  · have hgt : ¬ big.length ≤ AgentScope.smallObjSize := by
      rw [hbig]
      omega
    rw [AgentScope.set_content, if_neg hgt]
    exact ⟨rfl, by simp [hbig]⟩

/-- C6 (witness): payloads of 1000 and 1001 zero bytes on the args channel
of call id 7 in a fresh shared-memory state. -/
theorem c6_boundary_witness :
    ((List.replicate 1000 (0 : Nat)).length = AgentScope.smallObjSize ∧
     (List.replicate 1001 (0 : Nat)).length = AgentScope.smallObjSize + 1) ∧
    (((AgentScope.set_content AgentScope.shmInit "/args_8000_" 7
          (List.replicate 1000 (0 : Nat))).pool 7 =
        ⟨true, AgentScope.smallObjSize, List.replicate 1000 (0 : Nat)⟩ ∧
      (AgentScope.set_content AgentScope.shmInit "/args_8000_" 7
          (List.replicate 1000 (0 : Nat))).segments = AgentScope.shmInit.segments) ∧
     ((AgentScope.set_content AgentScope.shmInit "/args_8000_" 7
          (List.replicate 1001 (0 : Nat))).pool = AgentScope.shmInit.pool ∧
      (AgentScope.set_content AgentScope.shmInit "/args_8000_" 7
          (List.replicate 1001 (0 : Nat))).segments ("/args_8000_" ++ toString (7 : Nat)) =
        some ⟨AgentScope.smallObjSize + 1, List.replicate 1001 (0 : Nat)⟩)) :=
  ⟨⟨by rw [List.length_replicate]; rfl, by rw [List.length_replicate]; rfl⟩,
   c6_boundary AgentScope.shmInit "/args_8000_" 7
     (List.replicate 1000 (0 : Nat)) (List.replicate 1001 (0 : Nat))
     (by rw [List.length_replicate]; rfl) (by rw [List.length_replicate]; rfl)⟩

/-- C7: for every agent id absent from the routing table, `call_agent_func`
with target `_reply` fails at the transport level with INVALID_ARGUMENT and
the message "Try to reply a non-existent agent [agent_id].". -/
theorem c7_unknown_agent_reply (st : AgentScope.FrontendState) (agentId : String)
    (h : AgentScope.get_worker_id_by_agent_id st.agentIdMap agentId = -1) :
    (AgentScope.call_agent_func st agentId "_reply").1 =
      (AgentScope.GrpcStatus.invalidArgument
        ("Try to reply a non-existent agent [" ++ agentId ++ "]."), none) := by
  simp [AgentScope.call_agent_func, AgentScope.call_reply, h]

/-- C7 (witness): with an empty routing table, agent id "ghost" yields
INVALID_ARGUMENT with "Try to reply a non-existent agent [ghost].". -/
theorem c7_unknown_agent_reply_witness :
    (AgentScope.get_worker_id_by_agent_id AgentScope.frontendInit.agentIdMap "ghost" = -1) ∧
    (AgentScope.call_agent_func AgentScope.frontendInit "ghost" "_reply").1 =
      (AgentScope.GrpcStatus.invalidArgument
        "Try to reply a non-existent agent [ghost].", none) :=
  ⟨rfl, c7_unknown_agent_reply AgentScope.frontendInit "ghost" rfl⟩

/-- Shape of one full pass of the `download_file` read loop: a file of
`a * readSize + b` remaining bytes with `b < readSize` streams `a` chunks
of `readSize` bytes followed by one final chunk of `b` bytes. -/
theorem downloadChunkSizes_eq (a b : Nat) (hb : b < AgentScope.readSize) :
    AgentScope.downloadChunkSizes (a * AgentScope.readSize + b) =
      List.replicate a AgentScope.readSize ++ [b] := by
  induction a with
  | zero =>
    rw [AgentScope.downloadChunkSizes]
    simp [hb]
  | succ n ih =>
    rw [AgentScope.downloadChunkSizes]
    have h1 : ¬ (n + 1) * AgentScope.readSize + b < AgentScope.readSize := by
      have h2 : AgentScope.readSize ≤ (n + 1) * AgentScope.readSize :=
        Nat.le_mul_of_pos_left _ (Nat.succ_pos n)
      omega
    rw [dif_neg h1]
    have h3 : (n + 1) * AgentScope.readSize + b - AgentScope.readSize =
        n * AgentScope.readSize + b := by
      have h2 : AgentScope.readSize ≤ (n + 1) * AgentScope.readSize :=
        Nat.le_mul_of_pos_left _ (Nat.succ_pos n)
      calc (n + 1) * AgentScope.readSize + b - AgentScope.readSize
          = n * AgentScope.readSize + AgentScope.readSize + b - AgentScope.readSize := by
            ring_nf
        _ = n * AgentScope.readSize + b := by omega
    rw [h3, ih]
    simp [List.replicate_succ]

/-- C8: `download_file` of an existing 3.5 MiB file (3670016 bytes) streams
exactly four ByteMsg chunks of sizes 1 MiB, 1 MiB, 1 MiB and 0.5 MiB, and
returns OK. -/
theorem c8_download_chunks :
    AgentScope.download_file "/tmp/x" true 3670016 =
      (AgentScope.GrpcStatus.ok, [1048576, 1048576, 1048576, 524288]) := by
  rw [AgentScope.download_file, if_pos rfl]
  have h : (3670016 : Nat) = 3 * AgentScope.readSize + 524288 := by
    rw [AgentScope.readSize]
  rw [h, downloadChunkSizes_eq 3 524288 (by rw [AgentScope.readSize]; omega)]
  rfl

/-- C10: `calc_max_call_id` returns the `std::stoi` value of
`AGENTSCOPE_MAX_CALL_ID` converted to `unsigned int` (modulo 2^32) when the
variable is set and parseable, and the default 10000 when the variable is
unset or parsing throws; in particular the parseable value "-1" becomes
4294967295 instead of falling back to the default. -/
theorem c10_calc_max_call_id :
    (∀ s v, AgentScope.stoi s = Except.ok v →
      AgentScope.calc_max_call_id (some s) = AgentScope.toUInt32Nat v) ∧
    AgentScope.calc_max_call_id none = AgentScope.defaultMaxCallId ∧
    (∀ s e, AgentScope.stoi s = Except.error e →
      AgentScope.calc_max_call_id (some s) = AgentScope.defaultMaxCallId) ∧
    AgentScope.stoi "-1" = Except.ok (-1) ∧
    AgentScope.calc_max_call_id (some "-1") = 4294967295 := by
  refine ⟨?_, rfl, ?_, ?_, ?_⟩
  · intro s v hok
    rw [AgentScope.calc_max_call_id, hok]
  · intro s e herr
    rw [AgentScope.calc_max_call_id, herr]
  · rfl
  · rfl

/-- C10 (witness): the variable set to "20000" parses to 20000, the
variable set to "oops" throws `invalid_argument` and falls back to the
default. -/
theorem c10_calc_max_call_id_witness :
    (AgentScope.stoi "20000" = Except.ok 20000 ∧
     AgentScope.calc_max_call_id (some "20000") = AgentScope.toUInt32Nat 20000) ∧
    (AgentScope.stoi "oops" = Except.error AgentScope.StoiError.invalidArgument ∧
     AgentScope.calc_max_call_id (some "oops") = AgentScope.defaultMaxCallId) :=
  ⟨⟨by rfl, c10_calc_max_call_id.1 "20000" 20000 (by rfl)⟩,
   ⟨by rfl, c10_calc_max_call_id.2.2.1 "oops" AgentScope.StoiError.invalidArgument
      (by rfl)⟩⟩

end AgentScope
